import Mathlib

/-!
# Chat widget form controller (`src/app/static/script.js`)

A shallow embedding of the chat widget's script: the JavaScript values the
script reads from the reply object, the markup that `renderChatForm` assembles,
the payload that `submitChatForm` builds, and the two exchange handlers
`sendMessage` and `submitChatForm` as functions on an explicit page state.

Modelling conventions.
* A Number inside a reply is an integer of magnitude at most 2^53 (`SafeInt`):
  a double holds each of them and prints it in plain decimal digits.  Other
  reply numbers (fractions, larger magnitudes) and arrays are not represented.
* The result of `parseInt` is a double: the integer read from the text, rounded
  to the nearest double (`toNumber`), `Infinity` beyond the double range, and
  `NaN` as `none`.
* The markup built by template literals is kept as the tree that the template
  writes, with the interpolated texts at its leaves (`FormBlock`).  What the
  page holds once the markup is read is given separately (`renderedOptions`,
  `renderedOtherValue`, `renderedQuantity`), and only where the reading is
  certain: a text without `"`, `&`, `<`, NUL or CR is read back as written, a
  double-quoted attribute ends at the first `"`, and a number control keeps
  only a valid floating-point number.
* The rich-text formatter `marked` is an external collaborator: a transcript
  entry records the text handed to `appendMessage`.
-/

namespace ChatWidget

/-! ## JavaScript values -/

/-- An integer Number of magnitude at most 2^53: a double holds it exactly and
its text is its plain decimal digits. -/
structure SafeInt where
  val : Int
  isSafe : val.natAbs ≤ 9007199254740992

/-- The Number 0. -/
def SafeInt.zero : SafeInt := ⟨0, by decide⟩

/-- The Number 1. -/
def SafeInt.one : SafeInt := ⟨1, by decide⟩

/-- A JavaScript value as it can come out of a parsed JSON reply, plus
`undefined` for a missing property. -/
inductive JSVal where
  | undefined
  | null
  | bool (b : Bool)
  | num (n : SafeInt)
  | str (s : String)
  | object (props : List (String × JSVal))

/-- What can be thrown inside the handlers: a property read on `null` or
`undefined`, a rejected `fetch`, a rejected `response.json()`, and the
`HTTP error!` that `submitChatForm` throws itself. -/
inductive JSError where
  | typeError
  | fetchRejected
  | bodyNotJson
  | httpError (status : Nat)
  deriving DecidableEq, Repr

namespace JSVal

/-- ToBoolean: `undefined`, `null`, `false`, `0` and `""` are falsy. -/
def truthy : JSVal → Bool
  | undefined => false
  | null => false
  | bool b => b
  | num n => n.val != 0
  | str s => s != ""
  | object _ => true

/-- The operator `a || b`. -/
def or (a b : JSVal) : JSVal := if a.truthy then a else b

/-- ToString, as applied by template literals and string concatenation. -/
def toStr : JSVal → String
  | undefined => "undefined"
  | null => "null"
  | bool true => "true"
  | bool false => "false"
  | num n => toString n.val
  | str s => s
  | object _ => "[object Object]"

/-- The strict comparison `v === s` against a string. -/
def strictEqStr : JSVal → String → Bool
  | str t, s => t == s
  | _, _ => false

/-- First value stored under key `k` in a property list. -/
def lookupProp (k : String) : List (String × JSVal) → Option JSVal
  | [] => none
  | (k', v) :: rest => if k' == k then some v else lookupProp k rest

/-- Property read `v.k`: throws on `null` and `undefined`; a missing property,
and any of the property names used here on a primitive, is `undefined`. -/
def get (v : JSVal) (k : String) : Except JSError JSVal :=
  match v with
  | undefined => .error .typeError
  | null => .error .typeError
  | object props => .ok ((lookupProp k props).getD undefined)
  | _ => .ok undefined

end JSVal

open JSVal

/-! ## Markup of a form block -/

/-- An `<input>` element as the template writes it: `value` is the text put
between the quotes of `value="..."`. -/
structure InputEl where
  inputType : String
  id : String
  placeholder : Option String
  value : String
  readonly : Bool
  deriving DecidableEq, Repr

/-- An `<option>` element as the template writes it: `value` is the text put
between the quotes of `value="..."` when the attribute is written, `label` the
text put between the tags. -/
structure OptionEl where
  value : Option String
  disabled : Bool
  selected : Bool
  label : String
  deriving DecidableEq, Repr

/-- The product control: the read-only input or the `<select>`. -/
inductive ProductEl where
  | input (el : InputEl)
  | select (id : String) (options : List OptionEl)
  deriving DecidableEq, Repr

/-- The submit `<button>`; `onclickConfirm` is the second argument written
into `onclick="submitChatForm(this, ...)"`. -/
structure ButtonEl where
  onclickConfirm : Bool
  className : String
  text : String
  deriving DecidableEq, Repr

/-- The `div.chat-form` that `renderChatForm` writes into `formDiv.innerHTML`:
the tree of the template with the interpolated texts at its leaves. -/
structure FormBlock where
  cf_name : InputEl
  cf_email : InputEl
  cf_phone : InputEl
  cf_address : InputEl
  cf_product : ProductEl
  cf_qty : InputEl
  button : ButtonEl
  deriving DecidableEq, Repr

/-- The helper `safe = (val) => val || ""`. -/
def safe (val : JSVal) : JSVal := val.or (.str "")

/-- The array `knownProducts`. -/
def knownProducts : List String :=
  ["The Cloud Sofa", "Classic Chesterfield", "Artisan Oak Table", "Velvet Armchair"]

/-- The call `knownProducts.includes(v)`: only a string equal to an entry matches. -/
def knownProductsIncludes (v : JSVal) : Bool :=
  knownProducts.any (fun prod => v.strictEqStr prod)

/-- The `<option>` of one canonical product in the dropdown. -/
def productOption (pInterest : JSVal) (prod : String) : OptionEl :=
  { value := some prod, disabled := false, selected := pInterest.strictEqStr prod, label := prod }

/-- The `<option>` list as the dropdown branch of `productHtml` writes it: the
disabled placeholder, the four canonical products, and the last option, into
whose value attribute and label the text of `pInterest` is concatenated,
unescaped, when that is truthy and not a known product, and which is a bare
"Other" otherwise. What the page reads from it is `renderedOptions` and
`renderedOtherValue`. -/
def dropdownOptions (pInterest : JSVal) : List OptionEl :=
  let other := !knownProductsIncludes pInterest && pInterest.truthy
  [ { value := some "", disabled := true, selected := !pInterest.truthy,
      label := "Select Product" },
    productOption pInterest "The Cloud Sofa",
    productOption pInterest "Classic Chesterfield",
    productOption pInterest "Artisan Oak Table",
    productOption pInterest "Velvet Armchair",
    { value := if other then some pInterest.toStr else none, disabled := false,
      selected := other, label := if other then pInterest.toStr else "Other" } ]

/-- The variable `productHtml` of `renderChatForm`. -/
def productHtml (pInterest : JSVal) : ProductEl :=
  let isLocked := knownProductsIncludes pInterest
  if isLocked then
    .input { inputType := "text", id := "cf_product", placeholder := none,
             value := pInterest.toStr, readonly := true }
  else
    .select "cf_product" (dropdownOptions pInterest)

/-- An input of the template with the text concatenated, unescaped, into its
`value` attribute. What the quantity control then holds is `renderedQuantity`. -/
def textInput (inputType id placeholder : String) (value : JSVal) : InputEl :=
  { inputType := inputType, id := id, placeholder := some placeholder,
    value := value.toStr, readonly := false }

/-- The element `formDiv` built by `renderChatForm(prefillData = {}, mode = 'edit')`
before it is appended; a property read on a `null` prefill throws. -/
def formDiv (prefillData mode : JSVal) : Except JSError FormBlock := do
  let prefillData : JSVal := match prefillData with
    | .undefined => .object []
    | v => v
  let mode : JSVal := match mode with
    | .undefined => .str "edit"
    | v => v
  let pInterest := safe (← prefillData.get "product_interest")
  let product := productHtml pInterest
  let btnText := if mode.strictEqStr "confirm" then "Confirm Order" else "Send Details"
  let btnClass := if mode.strictEqStr "confirm" then "btn-confirm" else ""
  let isConfirm := mode.strictEqStr "confirm"
  let full_name ← prefillData.get "full_name"
  let email ← prefillData.get "email"
  let phone ← prefillData.get "phone"
  let address ← prefillData.get "address"
  let quantity ← prefillData.get "quantity"
  pure
    { cf_name := textInput "text" "cf_name" "Full Name" (safe full_name),
      cf_email := textInput "email" "cf_email" "Email" (safe email),
      cf_phone := textInput "tel" "cf_phone" "Phone" (safe phone),
      cf_address := textInput "text" "cf_address" "Address" (safe address),
      cf_product := product,
      cf_qty := textInput "number" "cf_qty" "Qty" (quantity.or (.num SafeInt.one)),
      button := { onclickConfirm := isConfirm, className := btnClass, text := btnText } }

/-! ## Reading the markup back -/

/-- Characters that the markup reader takes literally both inside a
double-quoted attribute value and inside element text: every character except
`"` (ends the attribute), `&` (starts a character reference), `<` (starts a
tag), NUL and CR (both rewritten). -/
def isPlainChar (c : Char) : Bool :=
  !(c == '"' || c == '&' || c == '<' || c.toNat == 0 || c.toNat == 13)

/-- A text made of plain characters only: written into the markup, it is read
back unchanged and adds no attribute or element. -/
def plainText (s : String) : Bool := s.data.all isPlainChar

/-- The value read from an attribute written as `name="raw"`: the text before
the first `"`. It is `none` when that text holds `&`, NUL or CR, whose reading
is not modelled. -/
def readQuotedAttr (raw : String) : Option String :=
  let pre := raw.data.takeWhile (fun c => c != '"')
  if pre.all (fun c => !(c == '&' || c.toNat == 0 || c.toNat == 13)) then some (String.mk pre)
  else none

/-- ASCII digits. -/
def isAsciiDigit (c : Char) : Bool := 48 ≤ c.toNat && c.toNat ≤ 57

/-- Mantissa of a valid floating-point number: digits, optionally followed by
`.` and digits, or `.` and digits alone. Returns what follows it. -/
def readMantissa (cs : List Char) : Option (List Char) :=
  let ds := cs.takeWhile isAsciiDigit
  let rest := cs.dropWhile isAsciiDigit
  match rest with
  | '.' :: t =>
    if (t.takeWhile isAsciiDigit).isEmpty then (if ds.isEmpty then none else some rest)
    else some (t.dropWhile isAsciiDigit)
  | _ => if ds.isEmpty then none else some rest

/-- Whether `cs` is empty or is an exponent `e`/`E`, an optional sign, and
one or more digits. -/
def isExponentOrEnd : List Char → Bool
  | [] => true
  | c :: t =>
    if c == 'e' || c == 'E' then
      let u := match t with
        | '-' :: u => u
        | '+' :: u => u
        | u => u
      !u.isEmpty && u.all isAsciiDigit
    else false

/-- Whether a text is a valid floating-point number in the sense of the markup
standard: an optional `-`, a mantissa, an optional exponent, nothing else. -/
def validFloatingPoint (s : String) : Bool :=
  let cs := match s.data with
    | '-' :: t => t
    | t => t
  match readMantissa cs with
  | some rest => isExponentOrEnd rest
  | none => false

/-- Value sanitization of an `<input type="number">`: a value that is not a
valid floating-point number becomes the empty string. -/
def sanitizeNumber (value : String) : String :=
  if validFloatingPoint value then value else ""

/-- The texts written into the value attributes of the four inputs that come
before the product control. -/
def FormBlock.textsBeforeProduct (f : FormBlock) : List String :=
  [f.cf_name.value, f.cf_email.value, f.cf_phone.value, f.cf_address.value]

/-- The texts written into the product control. -/
def FormBlock.productTexts (f : FormBlock) : List String :=
  match f.cf_product with
  | .input el => [el.value]
  | .select _ options => options.flatMap (fun o => o.value.toList ++ [o.label])

/-- Whether every text written into the block is plain, so that the page holds
the block exactly as the template wrote it. -/
def FormBlock.intact (f : FormBlock) : Bool :=
  (f.textsBeforeProduct ++ f.productTexts ++ [f.cf_qty.value]).all plainText

/-- The options that the page holds for the product `<select>`, known when the
block is intact: then they are the options written. -/
def renderedOptions (f : FormBlock) : Option (List OptionEl) :=
  match f.cf_product with
  | .select _ options => if f.intact then some options else none
  | .input _ => none

/-- The value attribute that the page holds for the last option of the product
`<select>`, known when the texts written before it are plain: outer `none` is
unknown, inner `none` is an option written without the attribute. -/
def renderedOtherValue (f : FormBlock) : Option (Option String) :=
  match f.cf_product with
  | .select _ options =>
    if f.textsBeforeProduct.all plainText then
      match options.getLast? with
      | some o =>
        match o.value with
        | some raw => (readQuotedAttr raw).map some
        | none => some none
      | none => none
    else none
  | .input _ => none

/-- The value that the page holds for the quantity control, known when the
block is intact: the written value after the number control's sanitization. -/
def renderedQuantity (f : FormBlock) : Option String :=
  if f.intact then some (sanitizeNumber f.cf_qty.value) else none

/-! ## Text helpers: `trim` and `parseInt` -/

/-- White space and line terminators, the characters removed by `trim` and
skipped by `parseInt`. -/
def isStrWhiteSpace (c : Char) : Bool :=
  let n := c.toNat
  n == 0x9 || n == 0xA || n == 0xB || n == 0xC || n == 0xD || n == 0x20 || n == 0xA0
    || n == 0x1680 || (0x2000 ≤ n && n ≤ 0x200A) || n == 0x2028 || n == 0x2029
    || n == 0x202F || n == 0x205F || n == 0x3000 || n == 0xFEFF

/-- The method `String.prototype.trim`. -/
def jsTrim (s : String) : String :=
  String.mk ((s.data.dropWhile isStrWhiteSpace).reverse.dropWhile isStrWhiteSpace).reverse

/-- Value of a character as a digit in radix `R`, if it is one. -/
def radixDigit (R : Nat) (c : Char) : Option Nat :=
  let n := c.toNat
  let v : Option Nat :=
    if 48 ≤ n ∧ n ≤ 57 then some (n - 48)
    else if 97 ≤ n ∧ n ≤ 122 then some (n - 97 + 10)
    else if 65 ≤ n ∧ n ≤ 90 then some (n - 65 + 10)
    else none
  v.filter (fun d => d < R)

/-- The longest prefix of radix-`R` digits, as digit values. -/
def leadingDigits (R : Nat) : List Char → List Nat
  | [] => []
  | c :: rest =>
    match radixDigit R c with
    | some d => d :: leadingDigits R rest
    | none => []

/-- Sign step of `parseInt`: a leading `-` gives sign -1, and a leading `-` or
`+` is removed. -/
def readSign : List Char → Int × List Char
  | '-' :: t => (-1, t)
  | '+' :: t => (1, t)
  | S => (1, S)

/-- Radix step of `parseInt` with no radix argument: a leading `0x` or `0X` is
removed and selects radix 16, otherwise the radix is 10. -/
def readRadix : List Char → Nat × List Char
  | '0' :: 'x' :: t => (16, t)
  | '0' :: 'X' :: t => (16, t)
  | S => (10, S)

/-- The integer that `parseInt(string)` with no radix argument reads from the
text, before it becomes a Number; `none` when there is no digit. Leading white
space is skipped, the sign and the radix are read, and the digits up to the
first non-digit give the value. -/
def parseIntExact (s : String) : Option Int :=
  let S := s.data.dropWhile isStrWhiteSpace
  let signed := readSign S
  let radixed := readRadix signed.2
  let Z := leadingDigits radixed.1 radixed.2
  if Z.isEmpty then none
  else some (signed.1 * (Z.foldl (fun acc d => acc * radixed.1 + d) 0 : Nat))

/-- A Number other than `NaN` that `parseInt` can return: an integer that a
double holds, or an infinity. -/
inductive JSNumber where
  | finite (n : Int)
  | infinity (negative : Bool)
  deriving DecidableEq, Repr

/-- Number of binary digits of `n`, for `n` below `2 ^ fuel`. -/
def bitLength : Nat → Nat → Nat
  | 0, _ => 0
  | fuel + 1, n => if n = 0 then 0 else bitLength fuel (n / 2) + 1

/-- The power 2^1024, the first power of two beyond every double. -/
def doubleOverflow : Nat := (2 ^ 256) ^ 4

/-- The quotient of `n` by `2 ^ e` rounded to the nearest integer, a tie going
to the even one. -/
def roundedQuotient (n e : Nat) : Nat :=
  let q := n / 2 ^ e
  let r := n % 2 ^ e
  if 2 ^ e < 2 * r ∨ (2 * r = 2 ^ e ∧ q % 2 = 1) then q + 1 else q

/-- The double nearest to the natural number `n`, ties to the even
significand; `none` when the result is beyond the double range. Up to 2^53
every natural number is a double; above, the 53 leading binary digits are kept
and the rest is rounded. -/
def roundToDouble (n : Nat) : Option Nat :=
  if n ≤ 2 ^ 53 then some n
  else if doubleOverflow ≤ n then none
  else
    let e := bitLength 1024 n - 53
    let m := roundedQuotient n e * 2 ^ e
    if m < doubleOverflow then some m else none

/-- The Number for the integer `n`: the nearest double, or an infinity. -/
def toNumber (n : Int) : JSNumber :=
  match roundToDouble n.natAbs with
  | some m => .finite (if n < 0 then -(m : Int) else (m : Int))
  | none => .infinity (decide (n < 0))

/-- The function `parseInt(string)` with no radix argument; `none` is `NaN`.
All digits are read, as engines do; the language also allows an engine to take
decimal digits after the 20th as 0, which can only matter above 2^53. -/
def parseInt (s : String) : Option JSNumber :=
  (parseIntExact s).map toNumber

/-- The expression `parseInt(text) || 1`: `NaN` and `0` are falsy, every other
Number, an infinity included, is truthy. -/
def parseIntOr1 (text : String) : JSNumber :=
  match parseInt text with
  | some (.finite n) => if n = 0 then .finite 1 else .finite n
  | some (.infinity negative) => .infinity negative
  | none => .finite 1

/-! ## The submission payload -/

/-- A control inside a form block, with its current `value`. -/
structure Element where
  id : String
  value : String
  deriving DecidableEq, Repr

/-- The call `parent.querySelector(sel)` for the id selectors used here. -/
def querySelector (parent : List Element) (sel : String) : Option Element :=
  parent.find? (fun el => "#" ++ el.id == sel)

/-- The helper `getVal` of `submitChatForm`. -/
def getVal (parent : List Element) (id : String) : String :=
  match querySelector parent id with
  | some el => el.value
  | none => ""

/-- A value stored in the `details` object: a string, a finite Number, an
infinite Number (which `JSON.stringify` writes as `null`), or a boolean. -/
inductive FieldVal where
  | text (s : String)
  | number (n : Int)
  | infinite (negative : Bool)
  | flag (b : Bool)
  deriving DecidableEq, Repr

/-- A Number as a value of the `details` object. -/
def JSNumber.toField : JSNumber → FieldVal
  | .finite n => .number n
  | .infinity negative => .infinite negative

/-- The object `details` of `submitChatForm` after the confirmation flag has
been added: its keys in insertion order with their values. -/
def details (parent : List Element) (isConfirmation : Bool) : List (String × FieldVal) :=
  let details : List (String × FieldVal) :=
    [ ("full_name", .text (getVal parent "#cf_name")),
      ("email", .text (getVal parent "#cf_email")),
      ("phone", .text (getVal parent "#cf_phone")),
      ("address", .text (getVal parent "#cf_address")),
      ("product_interest", .text (getVal parent "#cf_product")),
      ("quantity", (parseIntOr1 (getVal parent "#cf_qty")).toField) ]
  if isConfirmation then details ++ [("confirmed", .flag true)] else details

/-! ## Page state and script steps -/

/-- Who authored a transcript message. -/
inductive Role where
  | user
  | bot
  deriving DecidableEq, Repr

/-- A child of `chatBody`: a message `div` or a form block. -/
inductive Block where
  | message (role : Role) (content : String)
  | form (f : FormBlock)
  deriving DecidableEq, Repr

/-- A scroll action: `scrollToBottom()`, or
`scrollIntoView({ behavior: 'smooth', block: 'start' })` on the child of
`chatBody` at `index`. -/
inductive Scroll where
  | toBottom
  | intoViewSmoothStart (index : Nat)
  deriving DecidableEq, Repr

/-- The `message` of a request body handed to `fetch`: typed text, or the
details message `"Here are my details: "` followed by the fenced payload. -/
inductive Outgoing where
  | chat (message : String)
  | detailsJson (payload : List (String × FieldVal))
  deriving DecidableEq, Repr

/-- The observable page: the input box, the transcript container, and the
logs of scroll actions and of requests issued so far. -/
structure Page where
  chatInput : String
  chatBody : List Block
  scrolls : List Scroll
  sent : List Outgoing
  deriving DecidableEq, Repr

/-- The call `chatBody.appendChild(block)`. -/
def Page.appendChild (p : Page) (block : Block) : Page :=
  { p with chatBody := p.chatBody ++ [block] }

/-- How the `fetch` of one exchange settles: the promise rejects, or it
resolves with a status and a body that is JSON (`some`) or is not (`none`). -/
inductive FetchOutcome where
  | rejects
  | resolves (status : Nat) (json : Option JSVal)

/-- The `Response` object of a resolved `fetch`. -/
structure Response where
  status : Nat
  json : Option JSVal

/-- The property `response.ok`: status in the range 200 to 299. -/
def Response.ok (r : Response) : Bool := 200 ≤ r.status && r.status ≤ 299

/-- A script step: it runs on a page, leaves a page, and returns or throws. -/
def Script (α : Type) : Type := Page → Page × Except JSError α

namespace Script

/-- Return a value without touching the page. -/
def ret {α : Type} (a : α) : Script α := fun p => (p, .ok a)

/-- Sequencing: a throw skips the rest and keeps the page reached so far. -/
def andThen {α β : Type} (m : Script α) (f : α → Script β) : Script β := fun p =>
  match m p with
  | (p', .ok a) => f a p'
  | (p', .error e) => (p', .error e)

instance : Monad Script where
  pure := ret
  bind := andThen

/-- Evaluate an expression that may throw. -/
def eval {α : Type} (e : Except JSError α) : Script α := fun p => (p, e)

/-- The statement `throw`. -/
def throw {α : Type} (e : JSError) : Script α := fun p => (p, .error e)

/-- The statement `try { body } catch (err) { handler }`. -/
def tryCatch {α : Type} (body : Script α) (handler : JSError → Script α) : Script α := fun p =>
  match body p with
  | (p', .ok a) => (p', .ok a)
  | (p', .error e) => handler e p'

end Script

open Script

/-- The function `appendMessage(text, isUser)`: appends a message `div` and
returns it, as its index among the children of `chatBody`. -/
def appendMessage (text : String) (isUser : Bool) : Script Nat := fun p =>
  (p.appendChild (.message (if isUser then .user else .bot) text), .ok p.chatBody.length)

/-- The function `scrollToBottom()`. -/
def scrollToBottom : Script Unit := fun p =>
  ({ p with scrolls := p.scrolls ++ [.toBottom] }, .ok ())

/-- The call `msgDiv.scrollIntoView({ behavior: 'smooth', block: 'start' })`. -/
def scrollIntoView (msgDiv : Nat) : Script Unit := fun p =>
  ({ p with scrolls := p.scrolls ++ [.intoViewSmoothStart msgDiv] }, .ok ())

/-- The function `renderChatForm(prefillData, mode)`: builds `formDiv` and
appends it to `chatBody`; no scroll. -/
def renderChatForm (prefillData mode : JSVal) : Script Unit := fun p =>
  match formDiv prefillData mode with
  | .ok f => (p.appendChild (.form f), .ok ())
  | .error e => (p, .error e)

/-- The call `await fetch('/api/chat', ...)` with the given message. -/
def fetch (message : Outgoing) (net : FetchOutcome) : Script Response := fun p =>
  ({ p with sent := p.sent ++ [message] },
   match net with
   | .rejects => .error .fetchRejected
   | .resolves status json => .ok { status := status, json := json })

/-- The call `await response.json()`. -/
def Response.parseJson (r : Response) : Script JSVal :=
  match r.json with
  | some data => ret data
  | none => Script.throw .bodyNotJson

/-- The expression `data.meta ? (data.meta.form_mode || 'edit') : 'edit'`. -/
def formMode (data : JSVal) : Script JSVal := do
  let metaVal ← eval (data.get "meta")
  if metaVal.truthy then
    let form_mode ← eval (metaVal.get "form_mode")
    pure (form_mode.or (.str "edit"))
  else
    pure (.str "edit")

/-! ## `sendMessage` -/

/-- Reply handling of `sendMessage` (the statements after `data` is received,
up to the end of the `try` block). -/
def sendMessageReply (data : JSVal) : Script Unit := do
  let response ← eval (data.get "response")
  let msgDiv : Option Nat ←
    if response.truthy then some <$> appendMessage response.toStr false else pure none
  let show_form ← eval (data.get "show_form")
  if show_form.truthy then
    let mode ← formMode data
    let state ← eval (data.get "state")
    renderChatForm state mode
    match msgDiv with
    | some div => scrollIntoView div
    | none => scrollToBottom
  else
    scrollToBottom
  let error ← eval (data.get "error")
  if error.truthy then
    let _ ← appendMessage ("Error: " ++ error.toStr) false
    scrollToBottom

/-- The `try` block of `sendMessage` once `fetch` has resolved: the body is
read as JSON whatever the status, then handled. -/
def sendMessageOnResponse (response : Response) : Script Unit := do
  let data ← response.parseJson
  sendMessageReply data

/-- The function `sendMessage()`, run against the way its `fetch` settles. -/
def sendMessage (net : FetchOutcome) : Script Unit := fun p =>
  let text := jsTrim p.chatInput
  if text = "" then (p, .ok ())
  else
    (do
      let _ ← appendMessage text true
      (fun q => ({ q with chatInput := "" }, .ok ()))
      scrollToBottom
      tryCatch
        (do
          let response ← fetch (.chat text) net
          sendMessageOnResponse response)
        (fun _ => do
          let _ ← appendMessage "Sorry, something went wrong." false
          scrollToBottom)) p

/-! ## `submitChatForm` -/

/-- The clicked button: the controls of its parent `div.chat-form` (`none`
when it has no parent element) and its own state. -/
structure Button where
  parentElement : Option (List Element)
  disabled : Bool
  textContent : String
  deriving DecidableEq, Repr

/-- Reply handling of `submitChatForm` (the statements after `data` is
received, up to the end of the `try` block). -/
def submitChatFormReply (data : JSVal) : Script Unit := do
  let response ← eval (data.get "response")
  let msgDiv : Option Nat ←
    if response.truthy then some <$> appendMessage response.toStr false else pure none
  let show_form ← eval (data.get "show_form")
  if show_form.truthy then
    let mode ← formMode data
    let state ← eval (data.get "state")
    renderChatForm state mode
    match msgDiv with
    | some div => scrollIntoView div
    | none => scrollToBottom
  else
    scrollToBottom

/-- The `try` block of `submitChatForm` once `fetch` has resolved: a status
outside 200-299 throws, then the body is read as JSON and handled. -/
def submitChatFormOnResponse (response : Response) : Script Unit := do
  if !response.ok then Script.throw (.httpError response.status)
  let data ← response.parseJson
  submitChatFormReply data

/-- The `try` block of `submitChatForm` from the placeholder message on; the
button has already been disabled and relabelled. -/
def submitChatFormTry (payload : List (String × FieldVal)) (net : FetchOutcome) :
    Script Unit := do
  let _ ← appendMessage "📝 Form Submitted" true
  scrollToBottom
  let response ← fetch (.detailsJson payload) net
  submitChatFormOnResponse response

/-- The transcript part of the `catch` block of `submitChatForm`. -/
def submitChatFormCatch : Script Unit := do
  let _ ← appendMessage "Error submitting form. Please try again." false
  scrollToBottom

/-- The function `window.submitChatForm(btn, isConfirmation)`, run against the
way its `fetch` settles; returns the page and the button afterwards. -/
def submitChatForm (btn : Button) (isConfirmation : Bool) (net : FetchOutcome)
    (p : Page) : Page × Button :=
  match btn.parentElement with
  | none => (p, btn)
  | some parent =>
    let payload := details parent isConfirmation
    let btn : Button :=
      { btn with disabled := true,
                 textContent := if isConfirmation then "Confirmed!" else "Sent!" }
    match submitChatFormTry payload net p with
    | (p', .ok _) => (p', btn)
    | (p', .error _) =>
      ((submitChatFormCatch p').1, { btn with disabled := false, textContent := "Try Again" })

/-- A page with the given text typed into the input box and nothing else. -/
def Page.typed (text : String) : Page :=
  { chatInput := text, chatBody := [], scrolls := [], sent := [] }

/-- The six field names of a Form Prefill State. -/
def prefillFields : List String :=
  ["full_name", "email", "phone", "address", "product_interest", "quantity"]

/-- The value read by `prefillData.k` on a prefill object with properties `props`. -/
def prefillProp (props : List (String × JSVal)) (k : String) : JSVal :=
  (JSVal.lookupProp k props).getD .undefined

/-- The `<option>` of a canonical product when it is not pre-selected. -/
def plainOption (prod : String) : OptionEl :=
  { value := some prod, disabled := false, selected := false, label := prod }

/-- The read-only product input showing `s`. -/
def lockedProduct (s : String) : ProductEl :=
  .input { inputType := "text", id := "cf_product", placeholder := none, value := s,
           readonly := true }

/-- Whether a child of `chatBody` is a form block. -/
def Block.isForm : Block → Bool
  | .form _ => true
  | .message _ _ => false

/-- Whether a form block is among the children appended between page `before`
and page `after`. -/
def formRendered (before after : Page) : Bool :=
  (after.chatBody.drop before.chatBody.length).any Block.isForm

/-- The last scroll action issued so far. -/
def lastScroll (p : Page) : Option Scroll := p.scrolls.getLast?

/-! ## Basic facts -/

theorem get_object (props : List (String × JSVal)) (k : String) :
    (JSVal.object props).get k = .ok (prefillProp props k) := rfl

theorem strictEqStr_eq_true_iff (v : JSVal) (s : String) :
    v.strictEqStr s = true ↔ v = .str s := by
  cases v <;> simp [JSVal.strictEqStr]

theorem knownProductsIncludes_iff (v : JSVal) :
    knownProductsIncludes v = true ↔ ∃ s ∈ knownProducts, v = .str s := by
  simp [knownProductsIncludes, strictEqStr_eq_true_iff]

theorem safe_of_truthy {v : JSVal} (h : v.truthy = true) : safe v = v := by
  simp [safe, JSVal.or, h]

theorem safe_of_falsy {v : JSVal} (h : v.truthy = false) : safe v = .str "" := by
  simp [safe, JSVal.or, h]

theorem safe_truthy (v : JSVal) : (safe v).truthy = v.truthy := by
  cases h : v.truthy
  · rw [safe_of_falsy h]; rfl
  · rw [safe_of_truthy h]; exact h

theorem safe_eq_str_iff (v : JSVal) (s : String) (hs : s ≠ "") :
    safe v = .str s ↔ v = .str s := by
  cases h : v.truthy
  · rw [safe_of_falsy h]
    constructor
    · intro h'
      injection h' with h'
      exact absurd h'.symm hs
    · intro h'
      subst h'
      simp [JSVal.truthy] at h
      exact absurd h hs
  · rw [safe_of_truthy h]

theorem knownProducts_ne_empty {s : String} (h : s ∈ knownProducts) : s ≠ "" := by
  intro h'
  subst h'
  revert h
  decide

theorem knownProductsIncludes_safe_iff (v : JSVal) :
    knownProductsIncludes (safe v) = true ↔ ∃ s ∈ knownProducts, v = .str s := by
  rw [knownProductsIncludes_iff]
  constructor
  · rintro ⟨s, hs, h⟩
    exact ⟨s, hs, (safe_eq_str_iff v s (knownProducts_ne_empty hs)).1 h⟩
  · rintro ⟨s, hs, h⟩
    exact ⟨s, hs, (safe_eq_str_iff v s (knownProducts_ne_empty hs)).2 h⟩

/-- On a prefill object `formDiv` does not throw, and this is what it builds. -/
theorem formDiv_object (props : List (String × JSVal)) (mode : JSVal) :
    ∃ f, formDiv (.object props) mode = .ok f ∧
      f.cf_product = productHtml (safe (prefillProp props "product_interest")) ∧
      f.cf_qty.value = ((prefillProp props "quantity").or (.num SafeInt.one)).toStr ∧
      f.cf_name.value = (safe (prefillProp props "full_name")).toStr ∧
      f.cf_email.value = (safe (prefillProp props "email")).toStr ∧
      f.cf_phone.value = (safe (prefillProp props "phone")).toStr ∧
      f.cf_address.value = (safe (prefillProp props "address")).toStr ∧
      f.button.onclickConfirm =
        (match mode with
          | .undefined => false
          | m => m.strictEqStr "confirm") ∧
      f.button.text =
        (match mode with
          | .undefined => "Send Details"
          | m => if m.strictEqStr "confirm" then "Confirm Order" else "Send Details") := by
  cases mode <;>
    exact ⟨_, rfl, rfl, rfl, rfl, rfl, rfl, rfl, rfl, rfl⟩

theorem renderChatForm_of_formDiv {prefillData mode : JSVal} {f : FormBlock}
    (h : formDiv prefillData mode = .ok f) (p : Page) :
    renderChatForm prefillData mode p = (p.appendChild (.form f), .ok ()) := by
  simp [renderChatForm, h]

/-! ## Plain texts and decimal digits -/

theorem isPlainChar_of_toNat {c : Char}
    (h : c.toNat ≠ 34 ∧ c.toNat ≠ 38 ∧ c.toNat ≠ 60 ∧ c.toNat ≠ 0 ∧ c.toNat ≠ 13) :
    isPlainChar c = true := by
  have h1 : c ≠ '"' := fun e => h.1 (by rw [e]; rfl)
  have h2 : c ≠ '&' := fun e => h.2.1 (by rw [e]; rfl)
  have h3 : c ≠ '<' := fun e => h.2.2.1 (by rw [e]; rfl)
  simp [isPlainChar, h1, h2, h3, h.2.2.2.1, h.2.2.2.2]

theorem isPlainChar_of_digit {c : Char} (h : isAsciiDigit c = true) : isPlainChar c = true := by
  simp only [isAsciiDigit, Bool.and_eq_true, decide_eq_true_eq] at h
  exact isPlainChar_of_toNat (by omega)

theorem digitChar_isAsciiDigit {m : Nat} (h : m < 10) : isAsciiDigit (Nat.digitChar m) = true := by
  interval_cases m <;> rfl

theorem toDigitsCore_digits (fuel : Nat) : ∀ (n : Nat) (ds : List Char),
    (∀ c ∈ ds, isAsciiDigit c = true) →
    ∀ c ∈ Nat.toDigitsCore 10 fuel n ds, isAsciiDigit c = true := by
  induction fuel with
  | zero => intro n ds h; simpa [Nat.toDigitsCore] using h
  | succ fuel ih =>
    intro n ds h
    have hd : isAsciiDigit (Nat.digitChar (n % 10)) = true :=
      digitChar_isAsciiDigit (Nat.mod_lt _ (by decide))
    have hcons : ∀ c ∈ Nat.digitChar (n % 10) :: ds, isAsciiDigit c = true := by
      intro c hc
      rcases List.mem_cons.1 hc with rfl | hc
      · exact hd
      · exact h c hc
    simp only [Nat.toDigitsCore]
    split
    · exact hcons
    · exact ih _ _ hcons

theorem toDigitsCore_ne_nil (fuel : Nat) : ∀ (n : Nat) (ds : List Char),
    (fuel ≠ 0 ∨ ds ≠ []) → Nat.toDigitsCore 10 fuel n ds ≠ [] := by
  induction fuel with
  | zero => intro n ds h; rcases h with h | h; exact absurd rfl h; simpa [Nat.toDigitsCore] using h
  | succ fuel ih =>
    intro n ds _
    simp only [Nat.toDigitsCore]
    split
    · simp
    · exact ih _ _ (Or.inr (by simp))

theorem toString_nat_data (n : Nat) : (toString n).data = Nat.toDigits 10 n := rfl

theorem nat_digits (n : Nat) :
    (toString n).data ≠ [] ∧ ∀ c ∈ (toString n).data, isAsciiDigit c = true := by
  rw [toString_nat_data]
  exact ⟨toDigitsCore_ne_nil _ _ _ (Or.inl (by simp)), toDigitsCore_digits _ _ _ (by simp)⟩

theorem int_toString_data (i : Int) :
    ∃ ds, ds ≠ [] ∧ (∀ c ∈ ds, isAsciiDigit c = true) ∧
      ((toString i).data = ds ∨ (toString i).data = '-' :: ds) := by
  cases i with
  | ofNat m => exact ⟨_, (nat_digits m).1, (nat_digits m).2, Or.inl rfl⟩
  | negSucc m => exact ⟨_, (nat_digits (m + 1)).1, (nat_digits (m + 1)).2, Or.inr rfl⟩

theorem validFloatingPoint_digits {ds : List Char} (hne : ds ≠ [])
    (hd : ∀ c ∈ ds, isAsciiDigit c = true) : readMantissa ds = some [] := by
  have h1 : ds.takeWhile isAsciiDigit = ds := List.takeWhile_eq_self_iff.2 hd
  have h2 : ds.dropWhile isAsciiDigit = [] := List.dropWhile_eq_nil_iff.2 hd
  simp [readMantissa, h1, h2, hne]

theorem plainText_toString_int (i : Int) : plainText (toString i) = true := by
  obtain ⟨ds, -, hd, h | h⟩ := int_toString_data i
  · simp only [plainText, h, List.all_eq_true]
    exact fun c hc => isPlainChar_of_digit (hd c hc)
  · simp only [plainText, h, List.all_eq_true]
    intro c hc
    rcases List.mem_cons.1 hc with rfl | hc
    · rfl
    · exact isPlainChar_of_digit (hd c hc)

theorem validFloatingPoint_toString_int (i : Int) : validFloatingPoint (toString i) = true := by
  obtain ⟨ds, hne, hd, h | h⟩ := int_toString_data i
  · obtain ⟨c, t, rfl⟩ := List.exists_cons_of_ne_nil hne
    have hc : c ≠ '-' := by
      intro e
      have := hd c (by simp)
      rw [e] at this
      exact absurd this (by decide)
    have hm := validFloatingPoint_digits hne hd
    unfold validFloatingPoint
    rw [h]
    split
    · rename_i heq; simp at heq; exact absurd heq.1 hc
    · simp [hm, isExponentOrEnd]
  · have hm := validFloatingPoint_digits hne hd
    simp [validFloatingPoint, h, hm, isExponentOrEnd]

theorem plainText_safe {v : JSVal} (h : plainText v.toStr = true) :
    plainText (safe v).toStr = true := by
  cases ht : v.truthy
  · rw [safe_of_falsy ht]; rfl
  · rw [safe_of_truthy ht]; exact h

theorem plainText_or_one {v : JSVal} (h : plainText v.toStr = true) :
    plainText (v.or (.num SafeInt.one)).toStr = true := by
  cases ht : v.truthy
  · simp only [JSVal.or, ht]; rfl
  · simp only [JSVal.or, ht]; exact h

theorem of_isPlainChar {c : Char} (h : isPlainChar c = true) :
    c ≠ '"' ∧ c ≠ '&' ∧ c.toNat ≠ 0 ∧ c.toNat ≠ 13 := by
  simp only [isPlainChar, Bool.not_eq_true', Bool.or_eq_false_iff, beq_eq_false_iff_ne,
    ne_eq] at h
  exact ⟨h.1.1.1.1, h.1.1.1.2, h.1.2, h.2⟩

/-- A plain text written into a double-quoted attribute is read back as it is. -/
theorem readQuotedAttr_of_plain {raw : String} (h : plainText raw = true) :
    readQuotedAttr raw = some raw := by
  simp only [plainText, List.all_eq_true] at h
  have h1 : raw.data.takeWhile (fun c => c != '"') = raw.data :=
    List.takeWhile_eq_self_iff.2 (fun c hc => by simpa using (of_isPlainChar (h c hc)).1)
  have h2 : raw.data.all (fun c => !(c == '&' || c.toNat == 0 || c.toNat == 13)) = true := by
    rw [List.all_eq_true]
    intro c hc
    obtain ⟨-, ha, hz, hr⟩ := of_isPlainChar (h c hc)
    simp [ha, hz, hr]
  simp only [readQuotedAttr, h1, h2, if_true]

/-- On a prefill object whose six field texts are plain, the block that
`renderChatForm` appends is intact. -/
theorem renderChatForm_intact (props : List (String × JSVal)) (mode : JSVal) (p : Page)
    (hplain : ∀ k ∈ prefillFields, plainText (prefillProp props k).toStr = true) :
    ∃ f, renderChatForm (.object props) mode p = (p.appendChild (.form f), .ok ()) ∧
      f.intact = true ∧
      f.cf_product = productHtml (safe (prefillProp props "product_interest")) ∧
      f.cf_qty.value = ((prefillProp props "quantity").or (.num SafeInt.one)).toStr := by
  obtain ⟨f, hf, hprod, hqty, hname, hemail, hphone, haddress, -⟩ := formDiv_object props mode
  refine ⟨f, renderChatForm_of_formDiv hf p, ?_, hprod, hqty⟩
  have p1 := plainText_safe (hplain "full_name" (by decide))
  have p2 := plainText_safe (hplain "email" (by decide))
  have p3 := plainText_safe (hplain "phone" (by decide))
  have p4 := plainText_safe (hplain "address" (by decide))
  have p5 := plainText_safe (hplain "product_interest" (by decide))
  have p6 := plainText_or_one (hplain "quantity" (by decide))
  have c0 : plainText "" = true := by decide
  have c1 : plainText "The Cloud Sofa" = true := by decide
  have c2 : plainText "Classic Chesterfield" = true := by decide
  have c3 : plainText "Artisan Oak Table" = true := by decide
  have c4 : plainText "Velvet Armchair" = true := by decide
  have c5 : plainText "Select Product" = true := by decide
  have c6 : plainText "Other" = true := by decide
  cases hinc : knownProductsIncludes (safe (prefillProp props "product_interest")) <;>
  cases ht : (safe (prefillProp props "product_interest")).truthy <;>
  simp [FormBlock.intact, FormBlock.textsBeforeProduct, FormBlock.productTexts, hprod, hqty,
    hname, hemail, hphone, haddress, productHtml, dropdownOptions, productOption, hinc, ht,
    p1, p2, p3, p4, p5, p6, c0, c1, c2, c3, c4, c5, c6]

/-! ## The product field (C1, C2) -/

/-- C1. For every prefill object and every mode, `renderChatForm` appends one
form block whose product field is the read-only text input if and only if
`product_interest` is a string equal to one of the four catalog strings; in
that case the input shows exactly that string, and for every other
`product_interest` the product field is the `<select>`. -/
theorem renderChatForm_locks_iff_catalog (props : List (String × JSVal)) (mode : JSVal)
    (p : Page) :
    ∃ f, renderChatForm (.object props) mode p = (p.appendChild (.form f), .ok ()) ∧
      ((∃ el, f.cf_product = .input el ∧ el.readonly = true) ↔
        ∃ s ∈ knownProducts, prefillProp props "product_interest" = .str s) ∧
      (∀ s ∈ knownProducts, prefillProp props "product_interest" = .str s →
        f.cf_product = lockedProduct s) ∧
      ((¬ ∃ s ∈ knownProducts, prefillProp props "product_interest" = .str s) →
        ∃ options, f.cf_product = .select "cf_product" options) := by
  obtain ⟨f, hf, hprod, -⟩ := formDiv_object props mode
  refine ⟨f, renderChatForm_of_formDiv hf p, ?_, ?_, ?_⟩
  · rw [hprod, ← knownProductsIncludes_safe_iff]
    cases h : knownProductsIncludes (safe (prefillProp props "product_interest")) <;>
      simp [productHtml, h]
  · intro s hs heq
    have hinc : knownProductsIncludes (safe (prefillProp props "product_interest")) = true :=
      (knownProductsIncludes_safe_iff _).2 ⟨s, hs, heq⟩
    have hsafe : safe (prefillProp props "product_interest") = .str s :=
      (safe_eq_str_iff _ s (knownProducts_ne_empty hs)).2 heq
    rw [hprod]
    simp only [productHtml, hinc, if_true, lockedProduct]
    rw [hsafe]
    rfl
  · intro hnot
    have hinc : knownProductsIncludes (safe (prefillProp props "product_interest")) = false := by
      cases h : knownProductsIncludes (safe (prefillProp props "product_interest"))
      · rfl
      · exact absurd ((knownProductsIncludes_safe_iff _).1 h) hnot
    rw [hprod]
    exact ⟨dropdownOptions (safe (prefillProp props "product_interest")), by
      simp [productHtml, hinc]⟩

/-- Witness for C1: the catalog string "Classic Chesterfield" in edit mode is
rendered as the locked field showing it. -/
theorem renderChatForm_locks_iff_catalog_witness :
    ∃ f, renderChatForm (.object [("product_interest", .str "Classic Chesterfield")])
        (.str "edit") (Page.typed "") = ((Page.typed "").appendChild (.form f), .ok ()) ∧
      f.cf_product = lockedProduct "Classic Chesterfield" := by
  obtain ⟨f, hf, -, hlock, -⟩ :=
    renderChatForm_locks_iff_catalog [("product_interest", .str "Classic Chesterfield")]
      (.str "edit") (Page.typed "")
  exact ⟨f, hf, hlock "Classic Chesterfield" (by decide) rfl⟩

/-- C2, counterexample. For the prefill `{product_interest: 'Bench "XL"'}`, not
a catalog string, the last option of the select is written selected with the
text `Bench "XL"` between the quotes of its value attribute; the attribute ends
at the first `"`, so the value that the page holds is `Bench `, not the literal
`product_interest` string. -/
theorem renderChatForm_quote_cuts_option_value :
    ∃ f options o,
      renderChatForm (.object [("product_interest", .str "Bench \"XL\"")]) (.str "edit")
          (Page.typed "") = ((Page.typed "").appendChild (.form f), .ok ()) ∧
      f.cf_product = .select "cf_product" options ∧
      options.getLast? = some o ∧ o.selected = true ∧ o.value = some "Bench \"XL\"" ∧
      renderedOtherValue f = some (some "Bench ") ∧
      renderedOtherValue f ≠ some (some "Bench \"XL\"") :=
  ⟨_, _, _, rfl, rfl, rfl, rfl, rfl, by decide, by decide⟩

/-- C2, amended. For every prefill object whose `product_interest` is not a
catalog string and whose six field texts hold no `"`, `&`, `<`, NUL or CR, the
select that the page holds after `renderChatForm` has exactly one option marked
selected and no canonical option is: for a truthy (non-empty)
`product_interest` it is the last, synthetic option, whose value and label are
the text of `product_interest`; for a falsy one (empty, missing, null) it is
the disabled "Select Product" placeholder with value "" and the last option is
the plain unselected "Other", written without a value attribute. -/
theorem renderChatForm_select_preselection (props : List (String × JSVal)) (mode : JSVal)
    (p : Page)
    (hcat : ∀ s ∈ knownProducts, prefillProp props "product_interest" ≠ .str s)
    (hplain : ∀ k ∈ prefillFields, plainText (prefillProp props k).toStr = true) :
    ∃ f options, renderChatForm (.object props) mode p = (p.appendChild (.form f), .ok ()) ∧
      f.cf_product = .select "cf_product" options ∧
      renderedOptions f = some options ∧
      (options.filter (fun o => o.selected)).length = 1 ∧
      ((prefillProp props "product_interest").truthy = true →
        options =
          [ { value := some "", disabled := true, selected := false, label := "Select Product" },
            plainOption "The Cloud Sofa", plainOption "Classic Chesterfield",
            plainOption "Artisan Oak Table", plainOption "Velvet Armchair",
            { value := some (prefillProp props "product_interest").toStr, disabled := false,
              selected := true, label := (prefillProp props "product_interest").toStr } ] ∧
        renderedOtherValue f = some (some (prefillProp props "product_interest").toStr)) ∧
      ((prefillProp props "product_interest").truthy = false →
        options =
          [ { value := some "", disabled := true, selected := true, label := "Select Product" },
            plainOption "The Cloud Sofa", plainOption "Classic Chesterfield",
            plainOption "Artisan Oak Table", plainOption "Velvet Armchair",
            { value := none, disabled := false, selected := false, label := "Other" } ] ∧
        renderedOtherValue f = some none) := by
  obtain ⟨f, hf, hintact, hprod, -⟩ := renderChatForm_intact props mode p hplain
  have hinc : knownProductsIncludes (safe (prefillProp props "product_interest")) = false := by
    cases h : knownProductsIncludes (safe (prefillProp props "product_interest"))
    · rfl
    · obtain ⟨s, hs, heq⟩ := (knownProductsIncludes_safe_iff _).1 h
      exact absurd heq (hcat s hs)
  have hsel : ∀ prod ∈ knownProducts,
      (safe (prefillProp props "product_interest")).strictEqStr prod = false := by
    intro prod hprodmem
    cases h : (safe (prefillProp props "product_interest")).strictEqStr prod
    · rfl
    · have : knownProductsIncludes (safe (prefillProp props "product_interest")) = true :=
        (knownProductsIncludes_iff _).2 ⟨prod, hprodmem, (strictEqStr_eq_true_iff _ _).1 h⟩
      rw [hinc] at this
      cases this
  have h1 := hsel "The Cloud Sofa" (by decide)
  have h2 := hsel "Classic Chesterfield" (by decide)
  have h3 := hsel "Artisan Oak Table" (by decide)
  have h4 := hsel "Velvet Armchair" (by decide)
  have hselect : f.cf_product =
      .select "cf_product" (dropdownOptions (safe (prefillProp props "product_interest"))) := by
    rw [hprod]
    simp [productHtml, hinc]
  have hbefore : f.textsBeforeProduct.all plainText = true := by
    have h := hintact
    simp only [FormBlock.intact, List.all_append, Bool.and_eq_true] at h
    exact h.1.1
  refine ⟨f, dropdownOptions (safe (prefillProp props "product_interest")), hf, hselect, ?_,
    ?_, ?_, ?_⟩
  · simp [renderedOptions, hselect, hintact]
  · cases ht : (prefillProp props "product_interest").truthy <;>
      simp [dropdownOptions, productOption, hinc, h1, h2, h3, h4, safe_truthy, ht]
  · intro ht
    have hread := readQuotedAttr_of_plain (hplain "product_interest" (by decide))
    rw [safe_of_truthy ht] at hinc h1 h2 h3 h4 hselect ⊢
    constructor
    · simp [dropdownOptions, productOption, plainOption, hinc, h1, h2, h3, h4, ht]
    · simp [renderedOtherValue, hselect, hbefore, dropdownOptions, hinc, ht, hread]
  · intro ht
    constructor
    · simp [dropdownOptions, productOption, plainOption, hinc, h1, h2, h3, h4, safe_truthy, ht]
    · simp [renderedOtherValue, hselect, hbefore, dropdownOptions, hinc, safe_truthy, ht]

/-- Witness for C2 amended: "Garden Bench" is not in the catalog, holds no
markup character, and is pre-selected as the synthetic last option. -/
theorem renderChatForm_select_preselection_witness :
    ∃ f options, renderChatForm (.object [("product_interest", .str "Garden Bench")])
        (.str "edit") (Page.typed "") = ((Page.typed "").appendChild (.form f), .ok ()) ∧
      renderedOptions f = some options ∧
      (options.filter (fun o => o.selected)).length = 1 ∧
      options.getLast? = some { value := some "Garden Bench", disabled := false,
                                selected := true, label := "Garden Bench" } ∧
      renderedOtherValue f = some (some "Garden Bench") := by
  obtain ⟨f, options, hf, -, hread, hone, hother, -⟩ :=
    renderChatForm_select_preselection [("product_interest", .str "Garden Bench")]
      (.str "edit") (Page.typed "")
      (by
        intro s hs h
        have h' : s = "Garden Bench" := by
          simp only [prefillProp, JSVal.lookupProp] at h
          injection h with h
          exact h.symm
        subst h'
        revert hs
        decide)
      (by decide)
  refine ⟨f, options, hf, hread, hone, ?_, (hother rfl).2⟩
  rw [(hother rfl).1]
  rfl

/-! ## Script steps, unfolded -/

theorem Script.bind_apply {α β : Type} (m : Script α) (f : α → Script β) (p : Page) :
    (m >>= f) p =
      match m p with
      | (p', .ok a) => f a p'
      | (p', .error e) => (p', .error e) := rfl

theorem Script.pure_apply {α : Type} (a : α) (p : Page) :
    (pure a : Script α) p = (p, .ok a) := rfl

theorem Script.map_apply {α β : Type} (g : α → β) (m : Script α) (p : Page) :
    (g <$> m) p =
      match m p with
      | (p', .ok a) => (p', .ok (g a))
      | (p', .error e) => (p', .error e) := rfl

theorem Script.eval_apply {α : Type} (e : Except JSError α) (p : Page) :
    Script.eval e p = (p, e) := rfl

theorem Script.throw_apply {α : Type} (e : JSError) (p : Page) :
    (Script.throw e : Script α) p = (p, .error e) := rfl

theorem Script.ret_apply {α : Type} (a : α) (p : Page) :
    (Script.ret a : Script α) p = (p, .ok a) := rfl

theorem formDiv_null (mode : JSVal) : formDiv .null mode = .error .typeError := by
  cases mode <;> rfl

theorem formDiv_ne_null (state mode : JSVal) (h : state ≠ .null) :
    ∃ f, formDiv state mode = .ok f := by
  cases state <;> cases mode <;> first | exact absurd rfl h | exact ⟨_, rfl⟩

theorem formDiv_cases (state mode : JSVal) :
    (state = .null ∧ formDiv state mode = .error .typeError) ∨
      (state ≠ .null ∧ ∃ f, formDiv state mode = .ok f) := by
  by_cases h : state = .null
  · subst h
    exact Or.inl ⟨rfl, formDiv_null mode⟩
  · exact Or.inr ⟨h, formDiv_ne_null state mode h⟩

theorem get_of_truthy {v : JSVal} (h : v.truthy = true) (k : String) :
    ∃ w, v.get k = .ok w := by
  cases v <;> first | exact ⟨_, rfl⟩ | simp [JSVal.truthy] at h

/-- On a reply object the mode expression never throws and leaves the page alone. -/
theorem formMode_object (props : List (String × JSVal)) :
    ∃ m, ∀ p, formMode (.object props) p = (p, .ok m) := by
  cases h : (prefillProp props "meta").truthy
  · exact ⟨.str "edit", fun p => by
      simp [formMode, get_object, Script.bind_apply, Script.eval_apply, h, Script.pure_apply]⟩
  · obtain ⟨w, hw⟩ := get_of_truthy h "form_mode"
    exact ⟨w.or (.str "edit"), fun p => by
      simp [formMode, get_object, Script.bind_apply, Script.eval_apply, h, hw,
        Script.pure_apply]⟩

/-- Reply handling of `submitChatForm` issues no request, whatever the body is. -/
theorem submitChatFormReply_sent (data : JSVal) (p : Page) :
    (submitChatFormReply data p).1.sent = p.sent := by
  cases data with
  | object props =>
    obtain ⟨m, hm⟩ := formMode_object props
    cases hr : (prefillProp props "response").truthy <;>
    cases hs : (prefillProp props "show_form").truthy <;>
    rcases formDiv_cases (prefillProp props "state") m with ⟨-, hf⟩ | ⟨-, f, hf⟩ <;>
    simp [submitChatFormReply, get_object, Script.bind_apply, Script.pure_apply,
      Script.map_apply, Script.eval_apply, appendMessage, scrollToBottom, scrollIntoView,
      renderChatForm, Page.appendChild, hr, hs, hm, hf]
  | _ =>
    simp [submitChatFormReply, JSVal.get, JSVal.truthy, Script.bind_apply, Script.pure_apply,
      Script.map_apply, Script.eval_apply, scrollToBottom]

theorem submitChatFormOnResponse_sent (response : Response) (p : Page) :
    (submitChatFormOnResponse response p).1.sent = p.sent := by
  cases hok : response.ok <;> cases hj : response.json <;>
    simp [submitChatFormOnResponse, Script.bind_apply, Script.pure_apply, Script.throw_apply,
      Script.ret_apply, Response.parseJson, hok, hj, submitChatFormReply_sent]

/-- Whatever the transport does, `submitChatForm` on a button inside a form
issues exactly one request, and its payload is `details` of the live controls. -/
theorem submitChatForm_sent (parent : List Element) (disabled : Bool) (label : String)
    (isConfirmation : Bool) (net : FetchOutcome) (p : Page) :
    (submitChatForm ⟨some parent, disabled, label⟩ isConfirmation net p).1.sent =
      p.sent ++ [.detailsJson (details parent isConfirmation)] := by
  have key : ∀ q : Page, (submitChatFormCatch q).1.sent = q.sent := by
    intro q
    simp [submitChatFormCatch, Script.bind_apply, appendMessage, scrollToBottom, Page.appendChild]
  cases net with
  | rejects =>
    simp [submitChatForm, submitChatFormTry, Script.bind_apply, appendMessage, scrollToBottom,
      fetch, Page.appendChild, key]
  | resolves status json =>
    simp only [submitChatForm, submitChatFormTry, Script.bind_apply, appendMessage,
      scrollToBottom, fetch, Page.appendChild]
    split
    · rename_i h
      rw [← congrArg (fun r => r.1.sent) h]
      simp [submitChatFormOnResponse_sent]
    · rename_i h
      rw [key, ← congrArg (fun r => r.1.sent) h]
      simp [submitChatFormOnResponse_sent]

/-! ## Quantity and the confirmation flag (C3, C4, C8, C10) -/

theorem details_quantity (parent : List Element) (isConfirmation : Bool) :
    (details parent isConfirmation).lookup "quantity" =
      some (parseIntOr1 (getVal parent "#cf_qty")).toField := by
  cases isConfirmation <;> rfl

theorem getVal_of_missing {parent : List Element} {id : String}
    (h : querySelector parent id = none) : getVal parent id = "" := by
  simp [getVal, h]

theorem parseInt_eq_none_iff (text : String) :
    parseInt text = none ↔ parseIntExact text = none := by
  simp [parseInt]

theorem parseIntOr1_of_none {text : String} (h : parseInt text = none) :
    parseIntOr1 text = .finite 1 := by
  simp [parseIntOr1, h]

theorem parseIntOr1_toField_ne_zero (text : String) :
    (parseIntOr1 text).toField ≠ .number 0 := by
  unfold parseIntOr1
  split
  · split
    · simp [JSNumber.toField]
    · rename_i hne
      simpa [JSNumber.toField] using hne
  · simp [JSNumber.toField]
  · simp [JSNumber.toField]

/-- Up to 2^53 in magnitude the Number for an integer is that integer. -/
theorem toNumber_of_safe {n : Int} (h : n.natAbs ≤ 2 ^ 53) : toNumber n = .finite n := by
  have hr : roundToDouble n.natAbs = some n.natAbs := by
    unfold roundToDouble
    rw [if_pos h]
  simp only [toNumber, hr]
  congr 1
  split <;> omega

theorem two_pow_bitLength_le (fuel : Nat) : ∀ n : Nat, n ≠ 0 →
    2 ^ (bitLength fuel n - 1) ≤ n := by
  induction fuel with
  | zero =>
    intro n hn
    simp only [bitLength]
    omega
  | succ fuel ih =>
    intro n hn
    simp only [bitLength, hn, if_false, Nat.add_sub_cancel]
    by_cases h2 : n / 2 = 0
    · have : bitLength fuel (n / 2) = 0 := by
        rw [h2]
        cases fuel <;> simp [bitLength]
      rw [this]
      simp
      omega
    · have ih' := ih (n / 2) h2
      by_cases hb : bitLength fuel (n / 2) = 0
      · rw [hb]
        simp
        omega
      · have e : bitLength fuel (n / 2) = (bitLength fuel (n / 2) - 1) + 1 := by omega
        rw [e, pow_succ]
        omega

theorem le_roundedQuotient (n e : Nat) : n / 2 ^ e ≤ roundedQuotient n e := by
  unfold roundedQuotient
  simp only
  split <;> omega

/-- Rounding to a double never turns a non-zero natural number into 0. -/
theorem roundToDouble_ne_zero {n m : Nat} (hn : n ≠ 0) (h : roundToDouble n = some m) :
    m ≠ 0 := by
  unfold roundToDouble at h
  by_cases h1 : n ≤ 2 ^ 53
  · rw [if_pos h1] at h
    injection h with h
    omega
  · rw [if_neg h1] at h
    by_cases h2 : doubleOverflow ≤ n
    · rw [if_pos h2] at h
      cases h
    · rw [if_neg h2] at h
      simp only at h
      by_cases h3 : roundedQuotient n (bitLength 1024 n - 53) * 2 ^ (bitLength 1024 n - 53) <
          doubleOverflow
      · rw [if_pos h3] at h
        injection h with h
        have hpow : 2 ^ (bitLength 1024 n - 53) ≤ n :=
          le_trans (Nat.pow_le_pow_right (by decide) (by omega))
            (two_pow_bitLength_le 1024 n hn)
        have hpos : 0 < 2 ^ (bitLength 1024 n - 53) := Nat.pos_pow_of_pos _ (by decide)
        have hq : 1 ≤ n / 2 ^ (bitLength 1024 n - 53) := (Nat.one_le_div_iff hpos).2 hpow
        have hq' := le_roundedQuotient n (bitLength 1024 n - 53)
        rw [← h]
        exact Nat.ne_of_gt (Nat.mul_pos (by omega) hpos)
      · rw [if_neg h3] at h
        cases h

/-- For a text that parses to a non-zero integer, `parseInt(text) || 1` is the
Number for that integer. -/
theorem parseIntOr1_of_exact {text : String} {n : Int} (h : parseIntExact text = some n)
    (hn : n ≠ 0) : parseIntOr1 text = toNumber n := by
  have hp : parseInt text = some (toNumber n) := by simp [parseInt, h]
  unfold parseIntOr1
  rw [hp]
  cases hnum : toNumber n with
  | infinity negative => rfl
  | finite m =>
    have hm : m ≠ 0 := by
      unfold toNumber at hnum
      split at hnum
      · rename_i k hk
        have hk0 := roundToDouble_ne_zero (by omega : n.natAbs ≠ 0) hk
        injection hnum with hnum
        rw [← hnum]
        split <;> omega
      · cases hnum
    simp [hm]

theorem parseIntOr1_of_exact_zero {text : String} (h : parseIntExact text = some 0) :
    parseIntOr1 text = .finite 1 := by
  have hp : parseInt text = some (.finite 0) := by
    simp only [parseInt, h, Option.map_some']
    rfl
  simp [parseIntOr1, hp]

/-- A text whose first character is not white space, not a sign and not a
decimal digit has no leading integer: `parseInt` gives `NaN`. -/
theorem parseInt_none_of_first (c : Char) (rest : List Char)
    (hws : isStrWhiteSpace c = false) (hm : c ≠ '-') (hp : c ≠ '+')
    (hd : radixDigit 10 c = none) : parseInt (String.mk (c :: rest)) = none := by
  have h0 : c ≠ '0' := by
    intro h
    subst h
    revert hd
    decide
  have hsign : readSign (c :: rest) = (1, c :: rest) := by
    unfold readSign
    split
    · rename_i h; simp at h; exact absurd h.1 hm
    · rename_i h; simp at h; exact absurd h.1 hp
    · rfl
  have hradix : readRadix (c :: rest) = (10, c :: rest) := by
    unfold readRadix
    split
    · rename_i h; simp at h; exact absurd h.1 h0
    · rename_i h; simp at h; exact absurd h.1 h0
    · rfl
  rw [parseInt_eq_none_iff]
  simp [parseIntExact, List.dropWhile, hws, hsign, hradix, leadingDigits, hd]

/-- C3. Whatever the transport does, the payload that `submitChatForm` sends has
`quantity` equal to the integer 1 whenever the text of the quantity field fails
integer parsing, and when the form block has no quantity field; the empty
string, "abc", and every text that starts with a character that is neither
white space, a sign nor a decimal digit fail integer parsing. -/
theorem submitChatForm_quantity_defaults_to_one (parent : List Element) (disabled : Bool)
    (label : String) (isConfirmation : Bool) (net : FetchOutcome) (p : Page) :
    (∃ payload,
      (submitChatForm ⟨some parent, disabled, label⟩ isConfirmation net p).1.sent =
        p.sent ++ [.detailsJson payload] ∧
      (parseInt (getVal parent "#cf_qty") = none →
        payload.lookup "quantity" = some (.number 1)) ∧
      (querySelector parent "#cf_qty" = none →
        payload.lookup "quantity" = some (.number 1))) ∧
    parseInt "" = none ∧ parseInt "abc" = none ∧
    (∀ (c : Char) (rest : List Char), isStrWhiteSpace c = false → c ≠ '-' → c ≠ '+' →
      radixDigit 10 c = none → parseInt (String.mk (c :: rest)) = none) := by
  refine ⟨⟨details parent isConfirmation, submitChatForm_sent _ _ _ _ _ _, ?_, ?_⟩,
    by decide, by decide, parseInt_none_of_first⟩
  · intro h
    rw [details_quantity, parseIntOr1_of_none h]
    rfl
  · intro h
    rw [details_quantity, getVal_of_missing h]
    rfl

/-- Witness for C3: a quantity field holding "two" on a page whose request is
answered with status 200 and an empty reply object. -/
theorem submitChatForm_quantity_defaults_to_one_witness :
    ∃ payload,
      (submitChatForm ⟨some [⟨"cf_name", "Ann"⟩, ⟨"cf_qty", "two"⟩], false, "Send Details"⟩
          false (.resolves 200 (some (.object []))) (Page.typed "")).1.sent =
        [.detailsJson payload] ∧
      payload.lookup "quantity" = some (.number 1) := by
  obtain ⟨⟨payload, hsent, hfail, -⟩, -⟩ :=
    submitChatForm_quantity_defaults_to_one [⟨"cf_name", "Ann"⟩, ⟨"cf_qty", "two"⟩] false
      "Send Details" false (.resolves 200 (some (.object []))) (Page.typed "")
  exact ⟨payload, hsent, hfail (by decide)⟩

/-- C4, counterexample. With prefill quantity "abc", which is not an integer,
the text "abc" is written into the value attribute of the number control, and
the value that the control holds is the empty string, not 1. -/
theorem renderChatForm_quantity_invalid_not_one :
    ∃ f, renderChatForm (.object [("quantity", .str "abc")]) (.str "edit") (Page.typed "") =
        ((Page.typed "").appendChild (.form f), .ok ()) ∧
      f.cf_qty.value = "abc" ∧ renderedQuantity f = some "" ∧
      renderedQuantity f ≠ some "1" :=
  ⟨_, rfl, rfl, by decide, by decide⟩

/-- C4, amended. For every prefill object whose six field texts hold no `"`,
`&`, `<`, NUL or CR, the quantity control rendered by `renderChatForm` holds 1
when the prefill quantity is falsy (missing, null, 0, the empty string, false);
for a truthy prefill quantity it holds the text of that quantity when the text
is a valid floating-point number, in particular a non-zero integer is shown as
itself, and it holds the empty string otherwise. -/
theorem renderChatForm_quantity_value (props : List (String × JSVal)) (mode : JSVal)
    (p : Page)
    (hplain : ∀ k ∈ prefillFields, plainText (prefillProp props k).toStr = true) :
    ∃ f, renderChatForm (.object props) mode p = (p.appendChild (.form f), .ok ()) ∧
      ((prefillProp props "quantity").truthy = false → renderedQuantity f = some "1") ∧
      ((prefillProp props "quantity").truthy = true →
        validFloatingPoint (prefillProp props "quantity").toStr = true →
        renderedQuantity f = some (prefillProp props "quantity").toStr) ∧
      ((prefillProp props "quantity").truthy = true →
        validFloatingPoint (prefillProp props "quantity").toStr = false →
        renderedQuantity f = some "") ∧
      (∀ n : SafeInt, prefillProp props "quantity" = .num n → n.val ≠ 0 →
        renderedQuantity f = some (toString n.val)) := by
  obtain ⟨f, hf, hintact, -, hqty⟩ := renderChatForm_intact props mode p hplain
  have htrue : (prefillProp props "quantity").truthy = true →
      f.cf_qty.value = (prefillProp props "quantity").toStr := by
    intro h
    rw [hqty]
    simp [JSVal.or, h]
  refine ⟨f, hf, ?_, ?_, ?_, ?_⟩
  · intro h
    have hv : f.cf_qty.value = "1" := by
      rw [hqty]
      simp only [JSVal.or, h]
      rfl
    simp only [renderedQuantity, hintact, if_true, hv]
    rfl
  · intro h hvalid
    simp [renderedQuantity, hintact, htrue h, sanitizeNumber, hvalid]
  · intro h hvalid
    simp [renderedQuantity, hintact, htrue h, sanitizeNumber, hvalid]
  · intro n hn hne
    have ht : (prefillProp props "quantity").truthy = true := by
      rw [hn]
      simp [JSVal.truthy, hne]
    have hv := htrue ht
    rw [hn] at hv
    simp [renderedQuantity, hintact, hv, sanitizeNumber, JSVal.toStr,
      validFloatingPoint_toString_int]

/-- Witness for C4 amended: a missing quantity is shown as 1, the integer -7 as
itself, and for the string "two" the control is empty. -/
theorem renderChatForm_quantity_value_witness :
    (∃ f, renderChatForm (.object []) (.str "edit") (Page.typed "") =
        ((Page.typed "").appendChild (.form f), .ok ()) ∧ renderedQuantity f = some "1") ∧
    (∃ f, renderChatForm (.object [("quantity", .num ⟨-7, by decide⟩)]) (.str "edit")
          (Page.typed "") =
        ((Page.typed "").appendChild (.form f), .ok ()) ∧ renderedQuantity f = some "-7") ∧
    (∃ f, renderChatForm (.object [("quantity", .str "two")]) (.str "edit") (Page.typed "") =
        ((Page.typed "").appendChild (.form f), .ok ()) ∧ renderedQuantity f = some "") := by
  refine ⟨?_, ?_, ?_⟩
  · obtain ⟨f, hf, hfalsy, -⟩ :=
      renderChatForm_quantity_value [] (.str "edit") (Page.typed "") (by decide)
    exact ⟨f, hf, hfalsy rfl⟩
  · obtain ⟨f, hf, -, -, -, hint⟩ :=
      renderChatForm_quantity_value [("quantity", .num ⟨-7, by decide⟩)] (.str "edit")
        (Page.typed "") (by decide)
    exact ⟨f, hf, hint ⟨-7, by decide⟩ rfl (by decide)⟩
  · obtain ⟨f, hf, -, -, hbad, -⟩ :=
      renderChatForm_quantity_value [("quantity", .str "two")] (.str "edit") (Page.typed "")
        (by decide)
    exact ⟨f, hf, hbad rfl (by decide)⟩

theorem details_keys (parent : List Element) (isConfirmation : Bool) :
    (details parent isConfirmation).map Prod.fst =
      ["full_name", "email", "phone", "address", "product_interest", "quantity"] ++
        (if isConfirmation then ["confirmed"] else []) := by
  cases isConfirmation <;> rfl

theorem details_confirmed (parent : List Element) (isConfirmation : Bool) :
    (details parent isConfirmation).lookup "confirmed" =
      if isConfirmation then some (.flag true) else none := by
  cases isConfirmation <;> rfl

theorem strictEqStr_eq_false_of_ne {v : JSVal} {s : String} (h : v ≠ .str s) :
    v.strictEqStr s = false := by
  cases hv : v.strictEqStr s
  · rfl
  · exact absurd ((strictEqStr_eq_true_iff v s).1 hv) h

/-- C8. For every prefill object and every mode value, the button of the form
appended by `renderChatForm` reads "Confirm Order" when mode is the string
"confirm" and "Send Details" for every other mode (including "edit", absent
and unknown values); and when that button is submitted through
`submitChatForm`, with whatever the controls then hold and however the
transport settles, the payload sent has the six fields full_name, email, phone,
address, product_interest and quantity, followed by `confirmed: true` exactly
when mode is "confirm", and has no `confirmed` field otherwise. -/
theorem confirm_mode_label_and_flag (props : List (String × JSVal)) (mode : JSVal)
    (p : Page) :
    ∃ f, renderChatForm (.object props) mode p = (p.appendChild (.form f), .ok ()) ∧
      (mode = .str "confirm" → f.button.text = "Confirm Order") ∧
      (mode ≠ .str "confirm" → f.button.text = "Send Details") ∧
      ∀ (parent : List Element) (disabled : Bool) (label : String) (net : FetchOutcome)
        (q : Page),
        ∃ payload,
          (submitChatForm ⟨some parent, disabled, label⟩ f.button.onclickConfirm net q).1.sent =
            q.sent ++ [.detailsJson payload] ∧
          (mode = .str "confirm" →
            payload.map Prod.fst =
              ["full_name", "email", "phone", "address", "product_interest", "quantity",
               "confirmed"] ∧
            payload.lookup "confirmed" = some (.flag true)) ∧
          (mode ≠ .str "confirm" →
            payload.map Prod.fst =
              ["full_name", "email", "phone", "address", "product_interest", "quantity"] ∧
            payload.lookup "confirmed" = none) := by
  obtain ⟨f, hf, -, -, -, -, -, -, hflag, htext⟩ := formDiv_object props mode
  have hyes : mode = .str "confirm" →
      f.button.onclickConfirm = true ∧ f.button.text = "Confirm Order" := by
    intro h
    subst h
    exact ⟨hflag, htext⟩
  have hno : mode ≠ .str "confirm" →
      f.button.onclickConfirm = false ∧ f.button.text = "Send Details" := by
    intro h
    have hs := strictEqStr_eq_false_of_ne h
    cases mode <;> simp_all
  refine ⟨f, renderChatForm_of_formDiv hf p, fun h => (hyes h).2, fun h => (hno h).2, ?_⟩
  intro parent disabled label net q
  refine ⟨details parent f.button.onclickConfirm, submitChatForm_sent _ _ _ _ _ _, ?_, ?_⟩
  · intro h
    rw [details_keys, details_confirmed, (hyes h).1]
    exact ⟨rfl, rfl⟩
  · intro h
    rw [details_keys, details_confirmed, (hno h).1]
    exact ⟨rfl, rfl⟩

/-- Witness for C8: a confirm-mode form reads "Confirm Order" and its submission
carries `confirmed: true` after the six fields. -/
theorem confirm_mode_label_and_flag_witness :
    ∃ f, renderChatForm (.object []) (.str "confirm") (Page.typed "") =
        ((Page.typed "").appendChild (.form f), .ok ()) ∧
      f.button.text = "Confirm Order" ∧
      ∃ payload,
        (submitChatForm ⟨some [⟨"cf_name", "Ann"⟩], false, "Confirm Order"⟩
            f.button.onclickConfirm .rejects (Page.typed "")).1.sent = [.detailsJson payload] ∧
        payload.map Prod.fst =
          ["full_name", "email", "phone", "address", "product_interest", "quantity",
           "confirmed"] ∧
        payload.lookup "confirmed" = some (.flag true) := by
  obtain ⟨f, hf, hyes, -, hsub⟩ :=
    confirm_mode_label_and_flag [] (.str "confirm") (Page.typed "")
  obtain ⟨payload, hsent, hconf, -⟩ :=
    hsub [⟨"cf_name", "Ann"⟩] false "Confirm Order" .rejects (Page.typed "")
  exact ⟨f, hf, hyes rfl, payload, hsent, hconf rfl⟩

/-- C10, counterexample. The text "9007199254740993" parses to the non-zero
integer 9007199254740993, yet the quantity in the payload is 9007199254740992,
the nearest double. -/
theorem submitChatForm_quantity_rounded :
    parseIntExact "9007199254740993" = some 9007199254740993 ∧
    ∃ payload,
      (submitChatForm ⟨some [⟨"cf_qty", "9007199254740993"⟩], false, "Send Details"⟩ false
          .rejects (Page.typed "")).1.sent = [.detailsJson payload] ∧
      payload.lookup "quantity" = some (.number 9007199254740992) ∧
      payload.lookup "quantity" ≠ some (.number 9007199254740993) :=
  ⟨by decide, _, rfl, by decide, by decide⟩

/-- C10, amended. For every text in the quantity field, the `quantity` of the
payload sent by `submitChatForm` is never 0: it is the integer parsed from the
text when that is non-zero and of magnitude at most 2^53 (negative values
unchanged), in general the Number that `parseInt` makes of a non-zero integer
(the nearest double, or an infinity), and 1 when the text parses to 0 or does
not parse; "0" parses to 0, so it is submitted as 1; and for a prefill whose
texts hold no markup character `renderChatForm` shows 1 for a prefill quantity
of 0. -/
theorem quantity_is_nonzero (parent : List Element) (disabled : Bool) (label : String)
    (isConfirmation : Bool) (net : FetchOutcome) (p : Page) :
    (∃ payload,
      (submitChatForm ⟨some parent, disabled, label⟩ isConfirmation net p).1.sent =
        p.sent ++ [.detailsJson payload] ∧
      payload.lookup "quantity" ≠ some (.number 0) ∧
      (∀ n : Int, parseIntExact (getVal parent "#cf_qty") = some n → n ≠ 0 →
        n.natAbs ≤ 2 ^ 53 → payload.lookup "quantity" = some (.number n)) ∧
      (∀ n : Int, parseIntExact (getVal parent "#cf_qty") = some n → n ≠ 0 →
        payload.lookup "quantity" = some (toNumber n).toField) ∧
      (parseIntExact (getVal parent "#cf_qty") = some 0 →
        payload.lookup "quantity" = some (.number 1)) ∧
      (parseIntExact (getVal parent "#cf_qty") = none →
        payload.lookup "quantity" = some (.number 1))) ∧
    parseIntExact "0" = some 0 ∧ parseIntExact "-3" = some (-3) ∧
    (∀ (props : List (String × JSVal)) (mode : JSVal) (r : Page),
      (∀ k ∈ prefillFields, plainText (prefillProp props k).toStr = true) →
      prefillProp props "quantity" = .num SafeInt.zero →
      ∃ f, renderChatForm (.object props) mode r = (r.appendChild (.form f), .ok ()) ∧
        renderedQuantity f = some "1") := by
  refine ⟨⟨details parent isConfirmation, submitChatForm_sent _ _ _ _ _ _, ?_, ?_, ?_, ?_, ?_⟩,
    by decide, by decide, ?_⟩
  · rw [details_quantity]
    intro h
    injection h with h
    exact parseIntOr1_toField_ne_zero _ h
  · intro n hn hne hsafe
    rw [details_quantity, parseIntOr1_of_exact hn hne, toNumber_of_safe hsafe]
    rfl
  · intro n hn hne
    rw [details_quantity, parseIntOr1_of_exact hn hne]
  · intro h
    rw [details_quantity, parseIntOr1_of_exact_zero h]
    rfl
  · intro h
    rw [details_quantity, parseIntOr1_of_none ((parseInt_eq_none_iff _).2 h)]
    rfl
  · intro props mode r hplain hq
    obtain ⟨f, hf, hintact, -, hqty⟩ := renderChatForm_intact props mode r hplain
    refine ⟨f, hf, ?_⟩
    have hv : f.cf_qty.value = "1" := by
      rw [hqty, hq]
      rfl
    simp only [renderedQuantity, hintact, if_true, hv]
    rfl

/-- Witness for C10 amended: "-3" is submitted as -3 and "0" is submitted as 1. -/
theorem quantity_is_nonzero_witness :
    (∃ payload,
      (submitChatForm ⟨some [⟨"cf_qty", "-3"⟩], false, "Send Details"⟩ false .rejects
          (Page.typed "")).1.sent = [.detailsJson payload] ∧
      payload.lookup "quantity" = some (.number (-3))) ∧
    (∃ payload,
      (submitChatForm ⟨some [⟨"cf_qty", "0"⟩], false, "Send Details"⟩ false .rejects
          (Page.typed "")).1.sent = [.detailsJson payload] ∧
      payload.lookup "quantity" = some (.number 1)) := by
  constructor
  · obtain ⟨⟨payload, hsent, -, hparsed, -, -, -⟩, -⟩ :=
      quantity_is_nonzero [⟨"cf_qty", "-3"⟩] false "Send Details" false .rejects (Page.typed "")
    exact ⟨payload, hsent, hparsed (-3) (by decide) (by decide) (by decide)⟩
  · obtain ⟨⟨payload, hsent, -, -, -, hzero, -⟩, -⟩ :=
      quantity_is_nonzero [⟨"cf_qty", "0"⟩] false "Send Details" false .rejects (Page.typed "")
    exact ⟨payload, hsent, hzero (by decide)⟩

set_option maxRecDepth 100000 in
/-- A text of 310 decimal digits is beyond the double range: `parseInt` gives
`Infinity`, and that is the quantity put into the payload. -/
theorem submitChatForm_quantity_infinite :
    (details [⟨"cf_qty", String.mk ('1' :: List.replicate 309 '0')⟩] false).lookup "quantity" =
      some (.infinite false) := by
  decide

/-! ## Reply handling (C5, C6, C7, C9) -/

/-- With a form directive and a state other than `null`, `sendMessage` appends, after
the user entry, the text entry when `response` is truthy, then exactly one form
block built from `state` and the mode, then the "Error: " entry when `error` is
truthy, and no generic failure entry. -/
theorem sendMessage_renders_form (props : List (String × JSVal)) (status : Nat) (p : Page)
    (htext : jsTrim p.chatInput ≠ "")
    (hshow : (prefillProp props "show_form").truthy = true)
    (hstate : prefillProp props "state" ≠ .null) :
    ∃ m f, (∀ q, formMode (.object props) q = (q, .ok m)) ∧
      formDiv (prefillProp props "state") m = .ok f ∧
      (sendMessage (.resolves status (some (.object props))) p).1.chatBody =
        p.chatBody ++ [.message .user (jsTrim p.chatInput)] ++
          (if (prefillProp props "response").truthy
            then [.message .bot (prefillProp props "response").toStr] else []) ++
          [.form f] ++
          (if (prefillProp props "error").truthy
            then [.message .bot ("Error: " ++ (prefillProp props "error").toStr)] else []) := by
  obtain ⟨m, hm⟩ := formMode_object props
  obtain ⟨f, hf⟩ := formDiv_ne_null (prefillProp props "state") m hstate
  refine ⟨m, f, hm, hf, ?_⟩
  cases hr : (prefillProp props "response").truthy <;>
  cases he : (prefillProp props "error").truthy <;>
  simp [sendMessage, sendMessageOnResponse, sendMessageReply, htext, fetch,
    Response.parseJson, Script.tryCatch, get_object, Script.bind_apply, Script.pure_apply,
    Script.ret_apply, Script.map_apply, Script.eval_apply, appendMessage, scrollToBottom,
    scrollIntoView, renderChatForm, Page.appendChild, hr, hshow, he, hm, hf]

theorem Response.ok_of_range {status : Nat} (json : Option JSVal) (hlo : 200 ≤ status)
    (hhi : status ≤ 299) : Response.ok ⟨status, json⟩ = true := by
  simp [Response.ok, hlo, hhi]

/-- The same for `submitChatForm` on a success status, where no "Error: " entry
is ever appended. -/
theorem submitChatForm_renders_form (props : List (String × JSVal)) (status : Nat)
    (parent : List Element) (disabled : Bool) (label : String) (isConfirmation : Bool)
    (p : Page) (hlo : 200 ≤ status) (hhi : status ≤ 299)
    (hshow : (prefillProp props "show_form").truthy = true)
    (hstate : prefillProp props "state" ≠ .null) :
    ∃ m f, (∀ q, formMode (.object props) q = (q, .ok m)) ∧
      formDiv (prefillProp props "state") m = .ok f ∧
      (submitChatForm ⟨some parent, disabled, label⟩ isConfirmation
          (.resolves status (some (.object props))) p).1.chatBody =
        p.chatBody ++ [.message .user "📝 Form Submitted"] ++
          (if (prefillProp props "response").truthy
            then [.message .bot (prefillProp props "response").toStr] else []) ++
          [.form f] := by
  obtain ⟨m, hm⟩ := formMode_object props
  obtain ⟨f, hf⟩ := formDiv_ne_null (prefillProp props "state") m hstate
  refine ⟨m, f, hm, hf, ?_⟩
  have hok := Response.ok_of_range (some (.object props)) hlo hhi
  cases hr : (prefillProp props "response").truthy <;>
  simp [submitChatForm, submitChatFormTry, submitChatFormOnResponse, submitChatFormReply,
    submitChatFormCatch, fetch, hok, Response.parseJson, get_object,
    Script.bind_apply, Script.pure_apply, Script.ret_apply, Script.map_apply,
    Script.eval_apply, Script.throw_apply, appendMessage, scrollToBottom, scrollIntoView,
    renderChatForm, Page.appendChild, hr, hshow, hm, hf]

/-- C5, failing input. The reply `{response: "Got it", show_form: true, state: null}`
makes `renderChatForm` throw on its first property read: in both paths the text
entry is followed by the generic failure entry and no form block is appended. -/
theorem null_state_reply_renders_no_form :
    (sendMessage
        (.resolves 200 (some (.object
          [("response", .str "Got it"), ("show_form", .bool true), ("state", .null)])))
        (Page.typed "hi")).1.chatBody =
      [.message .user "hi", .message .bot "Got it",
       .message .bot "Sorry, something went wrong."] ∧
    (submitChatForm ⟨some [], false, "Send Details"⟩ false
        (.resolves 200 (some (.object
          [("response", .str "Got it"), ("show_form", .bool true), ("state", .null)])))
        (Page.typed "")).1.chatBody =
      [.message .user "📝 Form Submitted", .message .bot "Got it",
       .message .bot "Error submitting form. Please try again."] := by
  constructor <;> rfl

/-- Without a truthy `error`, the two reply handlers do the same on every reply
object. -/
theorem reply_handlers_agree_without_error (props : List (String × JSVal)) (p : Page)
    (herr : (prefillProp props "error").truthy = false) :
    sendMessageReply (.object props) p = submitChatFormReply (.object props) p := by
  obtain ⟨m, hm⟩ := formMode_object props
  cases hr : (prefillProp props "response").truthy <;>
  cases hs : (prefillProp props "show_form").truthy <;>
  rcases formDiv_cases (prefillProp props "state") m with ⟨-, hf⟩ | ⟨-, f, hf⟩ <;>
  simp [sendMessageReply, submitChatFormReply, get_object, Script.bind_apply,
    Script.pure_apply, Script.map_apply, Script.eval_apply, appendMessage, scrollToBottom,
    scrollIntoView, renderChatForm, Page.appendChild, hr, hs, herr, hm, hf]

/-- C6, failing input. On the reply `{error: "Out of stock"}` the reply handling
of `sendMessage` appends the entry "Error: Out of stock" and snaps to the bottom
twice, while that of `submitChatForm` appends nothing and snaps once. -/
theorem error_reply_handled_differently :
    (sendMessageReply (.object [("error", .str "Out of stock")]) (Page.typed "")).1.chatBody =
      [.message .bot "Error: Out of stock"] ∧
    (sendMessageReply (.object [("error", .str "Out of stock")]) (Page.typed "")).1.scrolls =
      [.toBottom, .toBottom] ∧
    (submitChatFormReply (.object [("error", .str "Out of stock")]) (Page.typed "")).1.chatBody =
      [] ∧
    (submitChatFormReply (.object [("error", .str "Out of stock")]) (Page.typed "")).1.scrolls =
      [.toBottom] := by
  refine ⟨?_, ?_, ?_, ?_⟩ <;> rfl

/-- A rejected `fetch`, or a body that is not JSON, leaves exactly the user entry
and one generic failure entry in both paths; so does a non-success status in
`submitChatForm`. -/
theorem transport_failure_single_entry (p : Page) (status : Nat) :
    (jsTrim p.chatInput ≠ "" →
      (sendMessage .rejects p).1.chatBody =
        p.chatBody ++ [.message .user (jsTrim p.chatInput),
                       .message .bot "Sorry, something went wrong."] ∧
      (sendMessage (.resolves status none) p).1.chatBody =
        p.chatBody ++ [.message .user (jsTrim p.chatInput),
                       .message .bot "Sorry, something went wrong."]) ∧
    (∀ (parent : List Element) (disabled : Bool) (label : String) (isConfirmation : Bool),
      (submitChatForm ⟨some parent, disabled, label⟩ isConfirmation .rejects p).1.chatBody =
        p.chatBody ++ [.message .user "📝 Form Submitted",
                       .message .bot "Error submitting form. Please try again."] ∧
      (submitChatForm ⟨some parent, disabled, label⟩ isConfirmation
          (.resolves status none) p).1.chatBody =
        p.chatBody ++ [.message .user "📝 Form Submitted",
                       .message .bot "Error submitting form. Please try again."] ∧
      (∀ json, ¬ (200 ≤ status ∧ status ≤ 299) →
        (submitChatForm ⟨some parent, disabled, label⟩ isConfirmation
            (.resolves status json) p).1.chatBody =
          p.chatBody ++ [.message .user "📝 Form Submitted",
                         .message .bot "Error submitting form. Please try again."])) := by
  refine ⟨fun htext => ⟨?_, ?_⟩, fun parent disabled label isConfirmation => ⟨?_, ?_, ?_⟩⟩
  · simp [sendMessage, htext, fetch, Script.tryCatch, Script.bind_apply, appendMessage,
      scrollToBottom, Page.appendChild]
  · simp [sendMessage, sendMessageOnResponse, htext, fetch, Response.parseJson,
      Script.tryCatch, Script.bind_apply, Script.throw_apply, appendMessage, scrollToBottom,
      Page.appendChild]
  · simp [submitChatForm, submitChatFormTry, submitChatFormCatch, fetch, Script.bind_apply,
      appendMessage, scrollToBottom, Page.appendChild]
  · cases hok : (Response.ok ⟨status, none⟩) <;>
    simp [submitChatForm, submitChatFormTry, submitChatFormOnResponse, submitChatFormCatch,
      fetch, hok, Response.parseJson, Script.bind_apply, Script.pure_apply,
      Script.throw_apply, appendMessage, scrollToBottom, Page.appendChild]
  · intro json hbad
    have hok : Response.ok ⟨status, json⟩ = false := by
      simp only [Response.ok, Bool.and_eq_false_iff, decide_eq_false_iff_not]
      by_cases h : 200 ≤ status
      · exact Or.inr (fun h' => hbad ⟨h, h'⟩)
      · exact Or.inl h
    simp [submitChatForm, submitChatFormTry, submitChatFormOnResponse, submitChatFormCatch,
      fetch, hok, Script.bind_apply, Script.pure_apply, Script.throw_apply, appendMessage,
      scrollToBottom, Page.appendChild]

/-- C7, failing input. `sendMessage` never looks at the status: a reply with
status 500 and the JSON body `{"detail": "Internal Server Error"}` appends no
error entry at all, and one with status 500 and a body carrying `response` and
`show_form` appends the text and a form block; `submitChatForm` on the same
status appends its single generic error entry. -/
theorem sendMessage_ignores_status :
    (sendMessage
        (.resolves 500 (some (.object [("detail", .str "Internal Server Error")])))
        (Page.typed "hi")).1.chatBody = [.message .user "hi"] ∧
    (∃ f, (sendMessage
        (.resolves 500 (some (.object [("response", .str "Welcome"), ("show_form", .bool true)])))
        (Page.typed "hi")).1.chatBody =
      [.message .user "hi", .message .bot "Welcome", .form f]) ∧
    (submitChatForm ⟨some [], false, "Send Details"⟩ false
        (.resolves 500 (some (.object [("detail", .str "Internal Server Error")])))
        (Page.typed "")).1.chatBody =
      [.message .user "📝 Form Submitted",
       .message .bot "Error submitting form. Please try again."] :=
  ⟨rfl, ⟨_, rfl⟩, rfl⟩

/-- C9, counterexample. For the reply `{response: "Got it", show_form: true,
state: {}, error: "Out of stock"}` `sendMessage` renders a form after the text
entry, yet its last scroll action is the snap to the bottom, not the smooth
scroll to the text entry. -/
theorem sendMessage_error_reply_snaps_to_bottom :
    ∃ f,
      (sendMessage
          (.resolves 200 (some (.object
            [("response", .str "Got it"), ("show_form", .bool true), ("state", .object []),
             ("error", .str "Out of stock")])))
          (Page.typed "hi")).1.chatBody =
        [.message .user "hi", .message .bot "Got it", .form f,
         .message .bot "Error: Out of stock"] ∧
      lastScroll (sendMessage
          (.resolves 200 (some (.object
            [("response", .str "Got it"), ("show_form", .bool true), ("state", .object []),
             ("error", .str "Out of stock")])))
          (Page.typed "hi")).1 = some .toBottom ∧
      lastScroll (sendMessage
          (.resolves 200 (some (.object
            [("response", .str "Got it"), ("show_form", .bool true), ("state", .object []),
             ("error", .str "Out of stock")])))
          (Page.typed "hi")).1 ≠ some (.intoViewSmoothStart 1) :=
  ⟨_, rfl, rfl, by decide⟩

/-- C9, amended. For every reply object handled by `sendMessage`, the last
scroll action is the smooth scroll of the reply's text entry to the top edge
when a form block was rendered, a text entry for `response` was appended and
`error` is not truthy, and is the snap to the bottom in every other case,
among them every reply with a truthy `error`. For `submitChatForm` on a success
status and a reply whose `error` is not truthy the same rule holds. -/
theorem last_scroll_rule (props : List (String × JSVal)) (status : Nat) (p : Page) :
    (jsTrim p.chatInput ≠ "" →
      lastScroll (sendMessage (.resolves status (some (.object props))) p).1 =
        some (if formRendered p (sendMessage (.resolves status (some (.object props))) p).1 &&
                (prefillProp props "response").truthy && !(prefillProp props "error").truthy
              then .intoViewSmoothStart (p.chatBody.length + 1) else .toBottom)) ∧
    (∀ (parent : List Element) (disabled : Bool) (label : String) (isConfirmation : Bool),
      200 ≤ status → status ≤ 299 → (prefillProp props "error").truthy = false →
      lastScroll (submitChatForm ⟨some parent, disabled, label⟩ isConfirmation
          (.resolves status (some (.object props))) p).1 =
        some (if formRendered p (submitChatForm ⟨some parent, disabled, label⟩ isConfirmation
                  (.resolves status (some (.object props))) p).1 &&
                (prefillProp props "response").truthy
              then .intoViewSmoothStart (p.chatBody.length + 1) else .toBottom)) := by
  obtain ⟨m, hm⟩ := formMode_object props
  constructor
  · intro htext
    cases hr : (prefillProp props "response").truthy <;>
    cases hs : (prefillProp props "show_form").truthy <;>
    cases he : (prefillProp props "error").truthy <;>
    rcases formDiv_cases (prefillProp props "state") m with ⟨-, hf⟩ | ⟨-, f, hf⟩ <;>
    simp [sendMessage, sendMessageOnResponse, sendMessageReply, htext, lastScroll,
      formRendered, Block.isForm, fetch, Response.parseJson, Script.tryCatch, get_object,
      Script.bind_apply, Script.pure_apply, Script.ret_apply, Script.map_apply,
      Script.eval_apply, appendMessage, scrollToBottom, scrollIntoView, renderChatForm,
      Page.appendChild, hr, hs, he, hm, hf]
  · intro parent disabled label isConfirmation hlo hhi he
    have hok := Response.ok_of_range (some (.object props)) hlo hhi
    cases hr : (prefillProp props "response").truthy <;>
    cases hs : (prefillProp props "show_form").truthy <;>
    rcases formDiv_cases (prefillProp props "state") m with ⟨-, hf⟩ | ⟨-, f, hf⟩ <;>
    simp [submitChatForm, submitChatFormTry, submitChatFormOnResponse, submitChatFormReply,
      submitChatFormCatch, lastScroll, formRendered, Block.isForm, fetch, hok,
      Response.parseJson, get_object, Script.bind_apply, Script.pure_apply,
      Script.ret_apply, Script.map_apply, Script.eval_apply, Script.throw_apply,
      appendMessage, scrollToBottom, scrollIntoView, renderChatForm, Page.appendChild, hr, hs,
      hm, hf]

/-- Witness for C9 amended: the reply `{response: "Got it", show_form: true,
state: {}, meta: {form_mode: "confirm"}}` ends with the smooth scroll to the
text entry in both paths. -/
theorem last_scroll_rule_witness :
    lastScroll (sendMessage
        (.resolves 200 (some (.object
          [("response", .str "Got it"), ("show_form", .bool true), ("state", .object []),
           ("meta", .object [("form_mode", .str "confirm")])])))
        (Page.typed "hi")).1 = some (.intoViewSmoothStart 1) ∧
    lastScroll (submitChatForm ⟨some [], false, "Send Details"⟩ false
        (.resolves 200 (some (.object
          [("response", .str "Got it"), ("show_form", .bool true), ("state", .object []),
           ("meta", .object [("form_mode", .str "confirm")])])))
        (Page.typed "")).1 = some (.intoViewSmoothStart 1) := by
  have h := last_scroll_rule
    [("response", .str "Got it"), ("show_form", .bool true), ("state", .object []),
     ("meta", .object [("form_mode", .str "confirm")])] 200
  exact ⟨(h (Page.typed "hi")).1 (by decide),
    (h (Page.typed "")).2 [] false "Send Details" false (by decide) (by decide) rfl⟩

end ChatWidget
